import Mathlib

/-!
Verification development for the legal-api repository.

The repository is a Python/FastAPI backend over a flat table of legal
case records.  This file gives a shallow embedding of the parts of the
code that carry algorithmic content: the filter/paginate query logic of
`services/search.py` and `services/export.py`, the snippet highlighter
of `services/highlight.py`, the CSV/JSONL serializers of
`services/export.py`, the court statistics of `services/stats.py`, and
the `/api/v1/search` endpoint glue of `main.py`.

The record store is modelled as a Lean list of `Case` records; SQL
queries become list filters (SQL `NULL` comparisons are three-valued,
so a condition on a `NULL` column is not satisfied, which the embedding
renders as `false` on `Option.none` fields).  Strings are handled as
`List Char` internally so that every definition evaluates inside the
kernel.
-/

namespace LegalAPI

/-! ## Character and substring utilities -/

/-- Lower-case a character list (models Python `str.lower` and SQL
`ILIKE`/`re.IGNORECASE` folding for the ASCII inputs the service
handles). -/
def lowerList (s : List Char) : List Char := s.map Char.toLower

/-- Case-insensitive "the pattern occurs at the front" test. -/
def isPrefixCI (pat s : List Char) : Bool :=
  (lowerList pat).isPrefixOf (lowerList s)

/-- Case-insensitive substring containment: models SQL
`col ILIKE '%pat%'` on a non-NULL column. -/
def containsCI (s pat : List Char) : Bool :=
  (List.range (s.length + 1)).any (fun i => isPrefixCI pat (s.drop i))

/-- Case-sensitive substring containment (used to state properties about
`<mark>` occurrences). -/
def containsSubB (s pat : List Char) : Bool :=
  (List.range (s.length + 1)).any (fun i => pat.isPrefixOf (s.drop i))

/-- `col ILIKE '%q%'` on a nullable column: `NULL` never matches. -/
def ilikeContains : Option String → String → Bool
  | none, _ => false
  | some s, q => containsCI s.toList q.toList

/-- `col ILIKE '%q%'` on a non-nullable column. -/
def ilikeStr (s q : String) : Bool := containsCI s.toList q.toList

/-- Lexicographic comparison of character lists by code point, modelling
SQLite's byte-wise text comparison on the ASCII ISO-8601 dates used by
the date filters. -/
def lexLe : List Char → List Char → Bool
  | [], _ => true
  | _ :: _, [] => false
  | a :: as, b :: bs => if a = b then lexLe as bs else decide (a.val < b.val)

/-- `Case.date >= date_from` (SQL): `NULL` date never satisfies it. -/
def dateGeB : Option String → String → Bool
  | none, _ => false
  | some d, f => lexLe f.toList d.toList

/-- `Case.date <= date_to` (SQL): `NULL` date never satisfies it. -/
def dateLeB : Option String → String → Bool
  | none, _ => false
  | some d, t => lexLe d.toList t.toList

/-- Rebuild a `String` from its character list. -/
def listToStr (l : List Char) : String := String.mk l

/-- Python slice `s[:n]` on a string. -/
def strTake (s : String) (n : Nat) : String := listToStr (s.toList.take n)

/-! ## Data model (`database.py`, class `Case`) -/

/-- A row of the `cases` table (`database.py` lines 17-29).  Nullable
columns are `Option`s; `judges` stays the raw JSON-encoded text it is
stored as. -/
structure Case where
  id : String
  title : String
  citation : Option String := none
  court : Option String := none
  date : Option String := none
  year : Option Int := none
  judges : Option String := none
  headnote : Option String := none
  text : Option String := none
deriving DecidableEq

/-! ## Query Builder (`services/search.py` lines 32-63,
`services/export.py` lines 100-124)

Python guards each filter with truthiness (`if query:`, `if court:`,
`if year:`, ...), so an empty string or the integer `0` leaves the
corresponding condition out of the query. -/

/-- The free-text condition of `search.py` lines 37-46 (also
`export.py` lines 103-112): title OR headnote OR text OR citation
contains the query case-insensitively. -/
def textCondition (q : String) (c : Case) : Bool :=
  ilikeStr c.title q || ilikeContains c.headnote q ||
    ilikeContains c.text q || ilikeContains c.citation q

/-- `if query: conditions.append(or_(...))` — falsy (empty) query adds
no condition. -/
def queryCond (q : String) (c : Case) : Bool :=
  if q = "" then true else textCondition q c

/-- `if court: conditions.append(Case.court.ilike(f"%{court}%"))` —
`None` or empty court adds no condition. -/
def courtCond (court : Option String) (c : Case) : Bool :=
  match court with
  | none => true
  | some ct => if ct = "" then true else ilikeContains c.court ct

/-- `if year: conditions.append(Case.year == year)` — `None` or `0`
year adds no condition (Python truthiness). -/
def yearCond (year : Option Int) (c : Case) : Bool :=
  match year with
  | none => true
  | some y => if y = 0 then true else decide (c.year = some y)

/-- `if date_from: conditions.append(Case.date >= date_from)`. -/
def dateFromCond (date_from : Option String) (c : Case) : Bool :=
  match date_from with
  | none => true
  | some f => if f = "" then true else dateGeB c.date f

/-- `if date_to: conditions.append(Case.date <= date_to)`. -/
def dateToCond (date_to : Option String) (c : Case) : Bool :=
  match date_to with
  | none => true
  | some t => if t = "" then true else dateLeB c.date t

/-- The conjunction `and_(*conditions)` built by `search_cases`
(`search.py` lines 34-63). -/
def searchFilter (query : String) (court : Option String) (year : Option Int)
    (date_from date_to : Option String) (c : Case) : Bool :=
  queryCond query c && courtCond court c && yearCond year c &&
    dateFromCond date_from c && dateToCond date_to c

/-- The conjunction `and_(*conditions)` built by `_fetch_export_rows`
(`export.py` lines 100-124); the Python is textually the same filter
logic as in `search.py`. -/
def exportFilter (query : String) (court : Option String) (year : Option Int)
    (date_from date_to : Option String) (c : Case) : Bool :=
  queryCond query c && courtCond court c && yearCond year c &&
    dateFromCond date_from c && dateToCond date_to c

/-! ## Result Formatter (`services/search.py` lines 77-101) -/

/-- One entry of `results` (`models.py`, `CaseResponse`). -/
structure CaseResponse where
  id : String
  title : String
  citation : Option String
  court : Option String
  date : Option String
  snippet : Option String
  relevance : Float

/-- The search response shape (`models.py`, `SearchResponse`). -/
structure SearchResponse where
  total : Nat
  page : Nat
  per_page : Nat
  total_pages : Nat
  results : List CaseResponse

/-- The text fallback of `search.py` line 81:
`case.text[:300] + "..." if case.text else None` — note the ellipsis is
appended unconditionally whenever `text` is truthy. -/
def textSnippet : Option String → Option String
  | none => none
  | some t => if t = "" then none else some (listToStr (t.toList.take 300) ++ "...")

/-- `search.py` line 81:
`snippet = case.headnote or (case.text[:300] + "..." if case.text else None)`. -/
def rawSnippet (c : Case) : Option String :=
  match c.headnote with
  | some h => if h = "" then textSnippet c.text else some h
  | none => textSnippet c.text

/-- `search_cases` (`search.py` lines 14-101): filter, count, paginate
(`offset = (page-1)*per_page`, window of `per_page` rows), format each
row, `total_pages = (total + per_page - 1) // per_page`.  The store is
the list `db`; `relevance` is the constant `1.0` of line 90. -/
def search_cases (db : List Case) (query : String)
    (court : Option String := none) (year : Option Int := none)
    (date_from : Option String := none) (date_to : Option String := none)
    (page : Nat := 1) (per_page : Nat := 20) : SearchResponse :=
  let matching := db.filter (searchFilter query court year date_from date_to)
  let total := matching.length
  let offset := (page - 1) * per_page
  let cases := (matching.drop offset).take per_page
  let results := cases.map (fun c =>
    { id := c.id, title := c.title, citation := c.citation, court := c.court,
      date := c.date, snippet := rawSnippet c,
      relevance := (1.0 : Float) } : Case → CaseResponse)
  { total := total, page := page, per_page := per_page,
    total_pages := (total + per_page - 1) / per_page, results := results }

/-! ## The `/api/v1/search` endpoint (`main.py` lines 103-139)

The handler forwards `highlight=highlight` to `search_cases`
(`main.py` line 136), but `search_cases` (`search.py` lines 14-23)
accepts only `db, query, court, year, date_from, date_to, page,
per_page`.  Python's call protocol raises `TypeError` when a keyword
argument does not bind to any parameter, so the call is modelled with
an explicit keyword-binding check. -/

/-- A Python runtime error surfaced by the embedding. -/
inductive PyError where
  | typeError (msg : String)
deriving DecidableEq

/-- The parameter names of `search_cases` (`search.py` lines 14-23). -/
def searchCasesParamNames : List String :=
  ["db", "query", "court", "year", "date_from", "date_to", "page", "per_page"]

/-- The keyword arguments of the call in `main.py` lines 127-137. -/
def searchCallKwargNames : List String :=
  ["db", "query", "court", "year", "date_from", "date_to", "page", "per_page",
   "highlight"]

/-- The `search` endpoint handler (`main.py` lines 103-139):
`per_page = per_page or settings.per_page_default` then
`per_page = min(per_page, settings.per_page_max)` (defaults 20 and 100),
then the keyword call into `search_cases`.  The call binds only if every
keyword names a parameter of the callee; otherwise Python raises
`TypeError`. -/
def search_endpoint (db : List Case) (q : String) (court : Option String)
    (year : Option Int) (date_from date_to : Option String)
    (page : Nat) (per_page : Option Nat) (highlight : Bool) :
    Except PyError SearchResponse :=
  let pp := min (per_page.getD 20) 100
  if searchCallKwargNames.all (fun k => searchCasesParamNames.contains k) then
    Except.ok (search_cases db q court year date_from date_to page pp)
  else
    Except.error (PyError.typeError
      "search_cases() got an unexpected keyword argument: highlight")

/-! ## Snippet Highlighter (`services/highlight.py` lines 9-71) -/

/-- The three-dot ellipsis the highlighter splices in. -/
def ellipsisChars : List Char := ['.', '.', '.']

/-- Worker for Python `query.split()`: split on runs of whitespace
(kept as possibly-empty pieces; the caller filters). -/
def splitWsAux (acc : List Char) : List Char → List (List Char)
  | [] => [acc.reverse]
  | c :: rest =>
    if c.isWhitespace then acc.reverse :: splitWsAux [] rest
    else splitWsAux (c :: acc) rest

/-- `highlight.py` line 38:
`tokens = [t.strip() for t in query.split() if t.strip()]` — the
whitespace-delimited, non-empty tokens of the query. -/
def queryTokens (q : String) : List (List Char) :=
  (splitWsAux [] q.toList).filter (fun t => !t.isEmpty)

/-- `highlight.py` lines 43-44: the first position at which any token
matches case-insensitively (`re.search` of the escaped-token
alternation with `re.IGNORECASE` returns the leftmost match). -/
def firstMatchPosAux (toks : List (List Char)) : List Char → Option Nat
  | [] => if toks.any (fun t => isPrefixCI t []) then some 0 else none
  | c :: rest =>
    if toks.any (fun t => isPrefixCI t (c :: rest)) then some 0
    else (firstMatchPosAux toks rest).map (· + 1)

/-- Position of the leftmost-earliest case-insensitive match of any
token in the text, if one exists. -/
def firstMatchPos (s : List Char) (toks : List (List Char)) : Option Nat :=
  firstMatchPosAux toks s

/-- The opening wrapper `<tag>`. -/
def openTag (tag : String) : List Char := '<' :: tag.toList ++ ['>']

/-- The closing wrapper `</tag>`. -/
def closeTag (tag : String) : List Char := '<' :: '/' :: tag.toList ++ ['>']

/-- Worker for one `re.sub` pass: scan left to right, wrap each
non-overlapping case-insensitive occurrence of `tok` in
`<tag>...</tag>` keeping the original casing of the matched slice, and
skip past it.  The fuel starts at the length of the scanned list and
each step consumes at least one character, so the `0` case is never
reached from `subCI`. -/
def subCIAux (tok : List Char) (tag : String) : Nat → List Char → List Char
  | _, [] => []
  | 0, s => s
  | fuel + 1, c :: rest =>
    if isPrefixCI tok (c :: rest) then
      openTag tag ++ (c :: rest).take tok.length ++ closeTag tag ++
        subCIAux tok tag fuel ((c :: rest).drop tok.length)
    else
      c :: subCIAux tok tag fuel rest

/-- One substitution pass of `highlight.py` lines 63-69 for one token.
The service only ever passes non-empty tokens (`queryTokens` filters
them), so the guard on the empty token is unreachable from the code
path being modelled. -/
def subCI (tok : List Char) (tag : String) (s : List Char) : List Char :=
  if tok.isEmpty then s else subCIAux tok tag s.length s

/-- `highlight.py` lines 63-69: sequential per-token substitution
passes over the progressively marked snippet. -/
def wrapTokens (toks : List (List Char)) (tag : String) (s : List Char) : List Char :=
  toks.foldl (fun acc tok => subCI tok tag acc) s

/-- `highlight.py` lines 35 and 40: text truncated to `max_length`
characters with `"..."` appended exactly when the text is longer. -/
def truncateEllipsis (t : List Char) (max_length : Nat) : List Char :=
  if max_length < t.length then t.take max_length ++ ellipsisChars else t

/-- `highlight_snippet` (`highlight.py` lines 9-71).  `text=None` and
`text=""` are falsy and returned unchanged; an empty query (or one with
no tokens) yields the plain truncation; otherwise the snippet window is
`[start, start + max_length)` with `start = max(0, m - max_length // 3)`
around the first match `m` (or `[0, max_length)` with no match), gets
`"..."` markers for trimmed ends, and every token occurrence inside it
is wrapped in `<tag>...</tag>`.  Natural subtraction renders Python's
`max(0, ...)`. -/
def highlight_snippet (text : Option String) (query : String)
    (max_length : Nat := 300) (tag : String := "mark") : Option String :=
  match text with
  | none => none
  | some t =>
    if t = "" then some t
    else if query = "" then some (listToStr (truncateEllipsis t.toList max_length))
    else
      let toks := queryTokens query
      if toks.isEmpty then some (listToStr (truncateEllipsis t.toList max_length))
      else
        let s := t.toList
        let start : Nat :=
          match firstMatchPos s toks with
          | some m => m - max_length / 3
          | none => 0
        let stop : Nat :=
          match firstMatchPos s toks with
          | some _ => start + max_length
          | none => max_length
        let snip := (s.drop start).take (stop - start)
        let snip := if 0 < start then ellipsisChars ++ snip else snip
        let snip := if stop < s.length then snip ++ ellipsisChars else snip
        some (listToStr (wrapTokens toks tag snip))

/-! ## Export Serializer (`services/export.py`) -/

/-- `MAX_EXPORT_ROWS` (`export.py` line 16). -/
def MAX_EXPORT_ROWS : Nat := 10000

/-- `_fetch_export_rows` (`export.py` lines 90-129): same filter logic
as search, no pagination, `stmt.limit(min(limit, MAX_EXPORT_ROWS))`. -/
def fetchExportRows (db : List Case) (query : String) (court : Option String)
    (year : Option Int) (date_from date_to : Option String) (limit : Nat) :
    List Case :=
  (db.filter (exportFilter query court year date_from date_to)).take
    (min limit MAX_EXPORT_ROWS)

/-- Python `csv` QUOTE_MINIMAL: a field is quoted when it contains the
delimiter, the quote character, or a line-terminator character. -/
def csvNeedsQuoting (f : List Char) : Bool :=
  f.any (fun c => c = ',' || c = '"' || c = '\r' || c = '\n')

/-- Double an embedded quote character (CSV escaping). -/
def csvEscapeChar (c : Char) : List Char :=
  if c = '"' then ['"', '"'] else [c]

/-- Serialize one CSV field under QUOTE_MINIMAL. -/
def csvField (f : List Char) : List Char :=
  if csvNeedsQuoting f then '"' :: f.flatMap csvEscapeChar ++ ['"'] else f

/-- `csv.writer.writerow`: comma-joined fields terminated by the
default `"\r\n"` line terminator of the `excel` dialect. -/
def csvRowLine (fields : List String) : List Char :=
  List.intercalate [','] (fields.map (fun f => csvField f.toList)) ++ ['\r', '\n']

/-- The `year` cell `c.year or ""` of `export.py` line 46, rendered by
`csv` through `str()`: `None` and `0` are falsy and print as empty. -/
def csvYearField : Option Int → String
  | none => ""
  | some y => if y = 0 then "" else toString y

/-- The data row of `export.py` lines 40-49; `headnote` is truncated to
500 characters for CSV only (line 48). -/
def csvCaseFields (c : Case) : List String :=
  [c.id, c.title, c.citation.getD "", c.court.getD "", c.date.getD "",
   csvYearField c.year, c.judges.getD "", strTake (c.headnote.getD "") 500]

/-- The header row of `export.py` line 37. -/
def csvHeaderFields : List String :=
  ["id", "title", "citation", "court", "date", "year", "judges", "headnote"]

/-- `export_cases_csv` (`export.py` lines 19-51): header row, one data
row per fetched case, returning `(csv_string, row_count)` with
`row_count = len(cases)`. -/
def export_cases_csv (db : List Case) (query : String)
    (court : Option String := none) (year : Option Int := none)
    (date_from : Option String := none) (date_to : Option String := none)
    (limit : Nat := MAX_EXPORT_ROWS) : String × Nat :=
  let cases := fetchExportRows db query court year date_from date_to limit
  let body := csvRowLine csvHeaderFields ++
    (cases.map (fun c => csvRowLine (csvCaseFields c))).flatten
  (listToStr body, cases.length)

/-- A JSON value as emitted by `json.dumps` for the export rows. -/
inductive JVal where
  | jnull
  | jstr (s : String)
  | jint (n : Int)
deriving DecidableEq

/-- Hexadecimal digit for `\u00XX` escapes. -/
def hexDigit (n : Nat) : Char :=
  if n < 10 then Char.ofNat ('0'.toNat + n) else Char.ofNat ('a'.toNat + (n - 10))

/-- `json.dumps` string escaping with `ensure_ascii=False`: quote,
backslash and control characters are escaped, everything else is kept. -/
def jsonEscapeChar (c : Char) : List Char :=
  if c = '"' then ['\\', '"']
  else if c = '\\' then ['\\', '\\']
  else if c = '\n' then ['\\', 'n']
  else if c = '\r' then ['\\', 'r']
  else if c = '\t' then ['\\', 't']
  else if c.toNat < 32 then
    ['\\', 'u', '0', '0', hexDigit (c.toNat / 16), hexDigit (c.toNat % 16)]
  else [c]

/-- Render one JSON value. -/
def renderJVal : JVal → List Char
  | JVal.jnull => ['n', 'u', 'l', 'l']
  | JVal.jstr s => '"' :: s.toList.flatMap jsonEscapeChar ++ ['"']
  | JVal.jint n => (toString n).toList

/-- A nullable string field as a JSON value. -/
def jvalOfOptStr : Option String → JVal
  | none => JVal.jnull
  | some s => JVal.jstr s

/-- A nullable integer field as a JSON value. -/
def jvalOfOptInt : Option Int → JVal
  | none => JVal.jnull
  | some n => JVal.jint n

/-- The object built per record by `export_cases_jsonl` (`export.py`
lines 71-81), in insertion order, with every field taken verbatim from
the record (no truncation). -/
def jsonlPairs (c : Case) : List (String × JVal) :=
  [("id", JVal.jstr c.id), ("title", JVal.jstr c.title),
   ("citation", jvalOfOptStr c.citation), ("court", jvalOfOptStr c.court),
   ("date", jvalOfOptStr c.date), ("year", jvalOfOptInt c.year),
   ("judges", jvalOfOptStr c.judges), ("headnote", jvalOfOptStr c.headnote)]

/-- Render one `"key": value` member (`json.dumps` default separators). -/
def renderPair (p : String × JVal) : List Char :=
  renderJVal (JVal.jstr p.1) ++ ':' :: ' ' :: renderJVal p.2

/-- Render one JSONL line: the object for one record. -/
def jsonlLine (c : Case) : List Char :=
  '\x7b' :: List.intercalate [',', ' '] ((jsonlPairs c).map renderPair) ++ ['\x7d']

/-- `export_cases_jsonl` (`export.py` lines 54-84): one JSON object per
line, `"\n".join(lines)` (so an empty result set yields an empty
string), returning `(jsonl_string, row_count)` with
`row_count = len(cases)`. -/
def export_cases_jsonl (db : List Case) (query : String)
    (court : Option String := none) (year : Option Int := none)
    (date_from : Option String := none) (date_to : Option String := none)
    (limit : Nat := MAX_EXPORT_ROWS) : String × Nat :=
  let cases := fetchExportRows db query court year date_from date_to limit
  (listToStr (List.intercalate ['\n'] (cases.map jsonlLine)), cases.length)

/-! ## Court statistics (`services/stats.py` lines 39-50, `main.py`
lines 266-275) -/

/-- One entry of the court breakdown. -/
structure CourtStat where
  court : String
  count : Nat
deriving DecidableEq

/-- `row[0] or "Unknown"` (`stats.py` line 50): a `NULL` (or empty)
court is displayed as `"Unknown"`. -/
def courtLabel : Option String → String
  | none => "Unknown"
  | some s => if s = "" then "Unknown" else s

/-- `get_court_stats` (`stats.py` lines 39-50): `GROUP BY court` (SQL
groups all `NULL`s together), `ORDER BY count DESC`, then each raw key
is displayed through `row[0] or "Unknown"`. -/
def get_court_stats (db : List Case) : List CourtStat :=
  let groups := ((db.map (fun c => c.court)).dedup).map
    (fun k => (k, (db.filter (fun c => decide (c.court = k))).length))
  let sorted := List.insertionSort (fun a b => b.2 ≤ a.2) groups
  sorted.map (fun g => { court := courtLabel g.1, count := g.2 })

/-- `list_courts` (`main.py` lines 266-275): the court names of the
court breakdown, in its order. -/
def list_courts (db : List Case) : List String :=
  (get_court_stats db).map (fun e => e.court)

/-! ## Declarative vocabulary for the highlighter window property -/

/-- "Token `tok` matches the text `s` case-insensitively at position
`i`": the characters of `s` from `i` on, lower-cased, begin with the
lower-cased token. -/
def tokenMatchAt (s tok : List Char) (i : Nat) : Prop :=
  i + tok.length ≤ s.length ∧
    lowerList ((s.drop i).take tok.length) = lowerList tok

/-- The claim's description of the emitted window: the slice
`[start, stop)` of the text, prefixed with `"..."` exactly when
`start > 0` and suffixed with `"..."` exactly when `stop < len(text)`. -/
def windowSnippet (s : List Char) (start stop : Nat) : List Char :=
  (if 0 < start then ellipsisChars else []) ++
    (s.drop start).take (stop - start) ++
    (if stop < s.length then ellipsisChars else [])

/-- The window property claim C5 states, packaged: when the leftmost
earliest match of any token is at `m`, the highlighter emits the window
`[max(0, m - maxLength/3), start + maxLength)` (natural subtraction is
the `max(0, ·)`), with ellipsis markers exactly at the trimmed ends,
wrapped by the per-token passes; with no match the window is
`[0, maxLength)`. -/
def C5Conclusion (t q : String) (max_length : Nat) (tag : String) : Prop :=
  (∀ m, firstMatchPos t.toList (queryTokens q) = some m →
    (∃ tok ∈ queryTokens q, tokenMatchAt t.toList tok m) ∧
    (∀ j, j < m → ∀ tok ∈ queryTokens q, ¬ tokenMatchAt t.toList tok j) ∧
    highlight_snippet (some t) q max_length tag =
      some (listToStr (wrapTokens (queryTokens q) tag
        (windowSnippet t.toList (m - max_length / 3)
          (m - max_length / 3 + max_length))))) ∧
  (firstMatchPos t.toList (queryTokens q) = none →
    (∀ j, ∀ tok ∈ queryTokens q, ¬ tokenMatchAt t.toList tok j) ∧
    highlight_snippet (some t) q max_length tag =
      some (listToStr (wrapTokens (queryTokens q) tag
        (windowSnippet t.toList 0 max_length))))

/-! ## Fixture records and claim-side formulas -/

/-- The record the repository's own fixtures build
(`tests/conftest.py`, `make_case_row` defaults). -/
def scenarioRecord : Case :=
  { id := "case_001", title := "Smith v. State", citation := some "2024 SC 445",
    court := some "Supreme Court", date := some "2024-03-15", year := some 2024,
    judges := some "[\"Justice A\", \"Justice B\"]",
    headnote := some "Brief summary of the case.",
    text := some "Full judgment text goes here." }

/-- A record with no headnote and a text of 10 characters. -/
def shortTextRecord : Case :=
  { id := "case_002", title := "Doe v. Roe", text := some "short text" }

/-- The raw-snippet formula exactly as claim C3 words it: headnote when
present and non-empty; else the first 300 characters of text with
`"..."` appended only when the text is longer than 300 characters and
the text itself unchanged otherwise; else absent. -/
def claimSnippetC3 (c : Case) : Option String :=
  match c.headnote with
  | some h =>
    if h ≠ "" then some h
    else match c.text with
      | some t => some (if 300 < t.length then strTake t 300 ++ "..." else t)
      | none => none
  | none =>
    match c.text with
    | some t => some (if 300 < t.length then strTake t 300 ++ "..." else t)
    | none => none

/-- The raw-snippet formula as amended: the ellipsis is appended
whenever the text is present and non-empty, regardless of its length. -/
def amendedSnippetC3 (c : Case) : Option String :=
  match c.headnote with
  | some h =>
    if h ≠ "" then some h
    else match c.text with
      | some t => if t ≠ "" then some (strTake t 300 ++ "...") else none
      | none => none
  | none =>
    match c.text with
    | some t => if t ≠ "" then some (strTake t 300 ++ "...") else none
    | none => none

/-- A record whose year is 1999. -/
def yearRecord : Case := { id := "case_y", title := "Year case", year := some 1999 }

/-- A one-record store whose record has a `NULL` court. -/
def unknownCourtDb : List Case := [{ id := "u1", title := "Untitled", court := none }]

/-! ## Helper lemmas -/

/-- A case-insensitive prefix check is exactly a token match at
position 0. -/
theorem isPrefixCI_iff (tok s : List Char) :
    isPrefixCI tok s = true ↔ tokenMatchAt s tok 0 := by
  unfold isPrefixCI tokenMatchAt
  rw [List.isPrefixOf_iff_prefix, List.prefix_iff_eq_take]
  simp only [List.drop_zero, lowerList, List.length_map, ← List.map_take]
  constructor
  · intro h
    have hl := congrArg List.length h
    simp only [List.length_map, List.length_take] at hl
    exact ⟨by omega, h.symm⟩
  · intro h
    exact h.2.symm

/-- Shifting a token match across a leading character. -/
theorem tokenMatchAt_cons (c : Char) (s tok : List Char) (i : Nat) :
    tokenMatchAt (c :: s) tok (i + 1) ↔ tokenMatchAt s tok i := by
  unfold tokenMatchAt
  rw [List.drop_succ_cons]
  simp only [List.length_cons]
  constructor
  · intro h; exact ⟨by omega, h.2⟩
  · intro h; exact ⟨by omega, h.2⟩

/-- The scan of `firstMatchPosAux` returns exactly the position of the
leftmost-earliest case-insensitive match of any token, and `none` when
no token matches anywhere. -/
theorem firstMatchPosAux_spec (toks : List (List Char)) (s : List Char) :
    (∀ m, firstMatchPosAux toks s = some m →
      (∃ tok ∈ toks, tokenMatchAt s tok m) ∧
      ∀ j, j < m → ∀ tok ∈ toks, ¬ tokenMatchAt s tok j) ∧
    (firstMatchPosAux toks s = none → ∀ j, ∀ tok ∈ toks, ¬ tokenMatchAt s tok j) := by
  induction s with
  | nil =>
    by_cases hany : toks.any (fun t => isPrefixCI t []) = true
    · constructor
      · intro m hm
        unfold firstMatchPosAux at hm
        rw [if_pos hany] at hm
        obtain ⟨tok, htok, hpre⟩ := List.any_eq_true.mp hany
        cases hm
        exact ⟨⟨tok, htok, (isPrefixCI_iff tok []).mp hpre⟩,
          fun j hj _ _ => absurd hj (by omega)⟩
      · intro hm
        unfold firstMatchPosAux at hm
        rw [if_pos hany] at hm
        cases hm
    · constructor
      · intro m hm
        unfold firstMatchPosAux at hm
        rw [if_neg hany] at hm
        cases hm
      · intro _ j tok htok hmatch
        have hj0 : j = 0 := by
          have := hmatch.1
          simp only [List.length_nil] at this
          omega
        subst hj0
        have : isPrefixCI tok [] = true := (isPrefixCI_iff tok []).mpr hmatch
        exact hany (List.any_eq_true.mpr ⟨tok, htok, this⟩)
  | cons c rest ih =>
    by_cases hany : toks.any (fun t => isPrefixCI t (c :: rest)) = true
    · constructor
      · intro m hm
        unfold firstMatchPosAux at hm
        rw [if_pos hany] at hm
        obtain ⟨tok, htok, hpre⟩ := List.any_eq_true.mp hany
        cases hm
        exact ⟨⟨tok, htok, (isPrefixCI_iff tok (c :: rest)).mp hpre⟩,
          fun j hj _ _ => absurd hj (by omega)⟩
      · intro hm
        unfold firstMatchPosAux at hm
        rw [if_pos hany] at hm
        cases hm
    · have hnone : ∀ tok ∈ toks, ¬ tokenMatchAt (c :: rest) tok 0 := by
        intro tok htok hmatch
        exact hany (List.any_eq_true.mpr
          ⟨tok, htok, (isPrefixCI_iff tok (c :: rest)).mpr hmatch⟩)
      constructor
      · intro m hm
        unfold firstMatchPosAux at hm
        rw [if_neg hany] at hm
        obtain ⟨m', hm', hmm⟩ := Option.map_eq_some'.mp hm
        subst hmm
        obtain ⟨⟨tok, htok, hmatch⟩, hearlier⟩ := ih.1 m' hm'
        refine ⟨⟨tok, htok, (tokenMatchAt_cons c rest tok m').mpr hmatch⟩, ?_⟩
        intro j hj tok' htok'
        cases j with
        | zero => exact hnone tok' htok'
        | succ j' =>
          intro hmatch'
          exact hearlier j' (by omega) tok' htok'
            ((tokenMatchAt_cons c rest tok' j').mp hmatch')
      · intro hm
        unfold firstMatchPosAux at hm
        rw [if_neg hany] at hm
        have hrest := ih.2 (Option.map_eq_none'.mp hm)
        intro j tok htok
        cases j with
        | zero => exact hnone tok htok
        | succ j' =>
          intro hmatch'
          exact hrest j' tok htok ((tokenMatchAt_cons c rest tok j').mp hmatch')

/-- The two sequential ellipsis steps of the highlighter compute the
`windowSnippet` form. -/
theorem windowSnippet_steps (s : List Char) (start stop : Nat) :
    (if stop < s.length then
      (if 0 < start then ellipsisChars ++ (s.drop start).take (stop - start)
       else (s.drop start).take (stop - start)) ++ ellipsisChars
     else
      (if 0 < start then ellipsisChars ++ (s.drop start).take (stop - start)
       else (s.drop start).take (stop - start))) = windowSnippet s start stop := by
  unfold windowSnippet
  by_cases h1 : 0 < start <;> by_cases h2 : stop < s.length <;> simp [h1, h2]

/-! ## Claim theorems -/

/-- C1: the claim says every valid search request completes with a
`SearchResponse` and no error.  The code contradicts it: the handler in
`main.py` forwards `highlight=highlight` to `search_cases`, whose
signature has no such parameter, so the keyword binding fails and every
search request — valid or not — raises `TypeError`. -/
theorem search_endpoint_always_typeerror (db : List Case) (q : String)
    (court : Option String) (year : Option Int) (date_from date_to : Option String)
    (page : Nat) (per_page : Option Nat) (hl : Bool) :
    search_endpoint db q court year date_from date_to page per_page hl =
      Except.error (PyError.typeError
        "search_cases() got an unexpected keyword argument: highlight") := rfl

/-- C2: the claim says an emitted snippet passes through the
highlighter when the highlight flag is on, so the scenario record's
snippet would contain `<mark>case</mark>`.  The code never invokes the
highlighter from the search path: `search_cases` emits the raw
headnote snippet with no `<mark>` wrapper (first two conjuncts), even
though the highlighter itself would have produced the marked snippet
the claim expects (third conjunct). -/
theorem search_snippet_never_highlighted :
    (search_cases [scenarioRecord] "case" none none none none 1 20).results.map
        (fun r => r.snippet) = [some "Brief summary of the case."] ∧
    containsSubB "Brief summary of the case.".toList "<mark>".toList = false ∧
    highlight_snippet (some "Brief summary of the case.") "case" 300 "mark" =
      some "Brief summary of the <mark>case</mark>." := by decide

/-- C3 counterexample: for a record with no headnote and a 10-character
text, the emitted snippet is `"short text..."` — `search.py` line 81
appends the ellipsis unconditionally — while the claim's formula gives
`"short text"` with no ellipsis. -/
theorem snippet_ellipsis_counterexample :
    (search_cases [shortTextRecord] "short" none none none none 1 20).results.map
        (fun r => r.snippet) = [some "short text..."] ∧
    claimSnippetC3 shortTextRecord = some "short text" ∧
    (some ("short text..." : String) ≠ some "short text") := by decide

/-- The snippet `search.py` line 81 computes agrees with the amended
formula on every record. -/
theorem rawSnippet_eq_amended (c : Case) : rawSnippet c = amendedSnippetC3 c := by
  unfold rawSnippet amendedSnippetC3 textSnippet strTake
  cases c.headnote with
  | none => cases c.text with
    | none => rfl
    | some t => by_cases ht : t = "" <;> simp [ht]
  | some h =>
    by_cases hh : h = ""
    · cases c.text with
      | none => simp [hh]
      | some t => by_cases ht : t = "" <;> simp [hh, ht]
    · simp [hh]

/-- C3 amended: for every search page, the emitted raw snippets are
exactly the amended formula applied to the page window of matching
records. -/
theorem snippet_formula_amended (db : List Case) (q : String)
    (court : Option String) (year : Option Int) (df dt : Option String)
    (page per_page : Nat) :
    (search_cases db q court year df dt page per_page).results.map
        (fun r => r.snippet) =
      (((db.filter (searchFilter q court year df dt)).drop
          ((page - 1) * per_page)).take per_page).map amendedSnippetC3 := by
  show List.map _ (List.map _ _) = _
  rw [List.map_map]
  exact List.map_congr_left (fun c _ => rawSnippet_eq_amended c)

/-- C4 counterexample: with a supplied year filter of `0`, both the
search and the export predicates admit a record whose year is 1999 —
`if year:` treats `0` as falsy and drops the condition — contradicting
the claim that any supplied year filter restricts to exact equality. -/
theorem year_zero_counterexample :
    searchFilter "" none (some 0) none none yearRecord = true ∧
    exportFilter "" none (some 0) none none yearRecord = true ∧
    yearRecord.year ≠ some 0 := by decide

/-- C4 amended: for every non-zero year filter `y` the search and
export predicates admit a record only if its year equals `y` exactly;
a supplied year filter of `0` is dropped and both predicates behave as
if no year filter were given. -/
theorem year_filter_exact_amended (q : String) (court : Option String)
    (df dt : Option String) (r : Case) (y : Int) (hy : y ≠ 0) :
    (searchFilter q court (some y) df dt r = true → r.year = some y) ∧
    (exportFilter q court (some y) df dt r = true → r.year = some y) ∧
    searchFilter q court (some 0) df dt r = searchFilter q court none df dt r ∧
    exportFilter q court (some 0) df dt r = exportFilter q court none df dt r := by
  unfold searchFilter exportFilter yearCond
  simp only [if_pos rfl, if_neg hy, Bool.and_eq_true, decide_eq_true_eq]
  exact ⟨fun h => h.1.1.2, fun h => h.1.1.2, rfl, rfl⟩

/-- Witness for the amended C4 theorem at `y = 1999`. -/
theorem year_filter_exact_witness :
    (1999 : Int) ≠ 0 ∧
    ((searchFilter "" none (some 1999) none none yearRecord = true →
        yearRecord.year = some 1999) ∧
     (exportFilter "" none (some 1999) none none yearRecord = true →
        yearRecord.year = some 1999) ∧
     searchFilter "" none (some 0) none none yearRecord =
       searchFilter "" none none none none yearRecord ∧
     exportFilter "" none (some 0) none none yearRecord =
       exportFilter "" none none none none yearRecord) :=
  ⟨by decide, year_filter_exact_amended "" none none none yearRecord 1999 (by decide)⟩

/-- C6 counterexample: the claim ends "... and the result never
contains a `<tag>` wrapper"; but for a text that itself contains the
wrapper, the empty-query result is the text unchanged and does contain
`<mark>`. -/
theorem highlight_tag_counterexample :
    highlight_snippet (some "<mark>x</mark>") "" 300 "mark" = some "<mark>x</mark>" ∧
    containsSubB "<mark>x</mark>".toList "<mark>".toList = true := by decide

/-- C6 amended: `None` text is returned unchanged for every query,
token-bearing or not; and for non-empty text and a query with no tokens
(empty or all-whitespace) the result is exactly the text truncated to
`max_length` characters with a trailing `"..."` appended precisely when
the text is longer — so no tag wrapper is ever added, though one
already present in the text survives. -/
theorem highlight_empty_query_amended (t q : String)
    (max_length : Nat) (tag : String) :
    highlight_snippet none q max_length tag = none ∧
    (queryTokens q = [] → t ≠ "" →
      highlight_snippet (some t) q max_length tag =
        some (listToStr (if max_length < t.toList.length then
          t.toList.take max_length ++ ellipsisChars else t.toList))) := by
  refine ⟨rfl, fun hq ht => ?_⟩
  by_cases hq0 : q = "" <;>
    simp [highlight_snippet, ht, hq0, hq, truncateEllipsis]

/-- Witness for the amended C6 theorem: the `None` clause at the
token-bearing query `"case"`, and the truncation clause on an
18-character text with `max_length = 10` and the empty query. -/
theorem highlight_empty_query_witness :
    highlight_snippet none "case" 10 "mark" = none ∧
    highlight_snippet (some "Some text content.") "" 10 "mark" =
      some (listToStr (if 10 < "Some text content.".toList.length then
        "Some text content.".toList.take 10 ++ ellipsisChars
        else "Some text content.".toList)) :=
  ⟨(highlight_empty_query_amended "Some text content." "case" 10 "mark").1,
   (highlight_empty_query_amended "Some text content." "" 10 "mark").2
     (by decide) (by decide)⟩

/-- C5: for non-empty text and a tokenized query, the highlighter's
window starts at `max(0, matchStart - maxLength/3)` — `matchStart`
being the position of the leftmost-earliest case-insensitive match of
any token — and extends `maxLength` characters from that start, or is
`[0, maxLength)` when no token matches; the sliced window is prefixed
with `"..."` exactly when its start is positive and suffixed with
`"..."` exactly when its end is below the text length. -/
theorem highlight_window_spec (t q : String) (max_length : Nat) (tag : String)
    (ht : t ≠ "") (hq : queryTokens q ≠ []) : C5Conclusion t q max_length tag := by
  have hq0 : q ≠ "" := by
    intro h
    subst h
    exact hq rfl
  have htoks : (queryTokens q).isEmpty = false := by
    cases hqt : queryTokens q with
    | nil => exact absurd hqt hq
    | cons a l => rfl
  unfold C5Conclusion
  constructor
  · intro m hm
    refine ⟨((firstMatchPosAux_spec (queryTokens q) t.toList).1 m hm).1,
      ((firstMatchPosAux_spec (queryTokens q) t.toList).1 m hm).2, ?_⟩
    show highlight_snippet (some t) q max_length tag = _
    simp only [highlight_snippet, if_neg ht, if_neg hq0, htoks, Bool.false_eq_true,
      if_false, hm]
    rw [windowSnippet_steps]
  · intro hm
    refine ⟨(firstMatchPosAux_spec (queryTokens q) t.toList).2 hm, ?_⟩
    show highlight_snippet (some t) q max_length tag = _
    simp only [highlight_snippet, if_neg ht, if_neg hq0, htoks, Bool.false_eq_true,
      if_false, hm]
    rw [windowSnippet_steps]

/-- Witness for C5 on a concrete text and query. -/
theorem highlight_window_spec_witness :
    "The contract was breached." ≠ "" ∧ queryTokens "contract" ≠ [] ∧
    C5Conclusion "The contract was breached." "contract" 10 "mark" :=
  ⟨by decide, by decide,
    highlight_window_spec "The contract was breached." "contract" 10 "mark"
      (by decide) (by decide)⟩

/-- C7: `total` is the size of the full matching set, independent of
the page window, and `total_pages = (total + per_page - 1) // per_page`
is the ceiling of `total / per_page` (characterized by the two
inequalities), which is `0` when `total = 0`. -/
theorem search_total_and_pages (db : List Case) (q : String)
    (court : Option String) (year : Option Int) (df dt : Option String)
    (page per_page : Nat) (hpp : 1 ≤ per_page) :
    (search_cases db q court year df dt page per_page).total =
      (db.filter (searchFilter q court year df dt)).length ∧
    (search_cases db q court year df dt page per_page).total_pages =
      ((search_cases db q court year df dt page per_page).total + per_page - 1) /
        per_page ∧
    (search_cases db q court year df dt page per_page).total ≤
      per_page * (search_cases db q court year df dt page per_page).total_pages ∧
    per_page * (search_cases db q court year df dt page per_page).total_pages <
      (search_cases db q court year df dt page per_page).total + per_page ∧
    ((search_cases db q court year df dt page per_page).total = 0 →
      (search_cases db q court year df dt page per_page).total_pages = 0) := by
  have key : ∀ t : Nat, t ≤ per_page * ((t + per_page - 1) / per_page) ∧
      per_page * ((t + per_page - 1) / per_page) < t + per_page ∧
      (t = 0 → (t + per_page - 1) / per_page = 0) := by
    intro t
    have h1 := Nat.div_add_mod (t + per_page - 1) per_page
    have h2 : (t + per_page - 1) % per_page < per_page := Nat.mod_lt _ (by omega)
    refine ⟨by omega, by omega, fun h0 => ?_⟩
    subst h0
    exact Nat.div_eq_of_lt (by omega)
  exact ⟨rfl, rfl, (key _).1, (key _).2.1, (key _).2.2⟩

/-- Witness for C7 on a one-record store with `per_page = 20`. -/
theorem search_total_and_pages_witness :
    1 ≤ 20 ∧
    ((search_cases [scenarioRecord] "case" none none none none 1 20).total =
       ([scenarioRecord].filter (searchFilter "case" none none none none)).length ∧
     (search_cases [scenarioRecord] "case" none none none none 1 20).total_pages =
       ((search_cases [scenarioRecord] "case" none none none none 1 20).total + 20 - 1) / 20 ∧
     (search_cases [scenarioRecord] "case" none none none none 1 20).total ≤
       20 * (search_cases [scenarioRecord] "case" none none none none 1 20).total_pages ∧
     20 * (search_cases [scenarioRecord] "case" none none none none 1 20).total_pages <
       (search_cases [scenarioRecord] "case" none none none none 1 20).total + 20 ∧
     ((search_cases [scenarioRecord] "case" none none none none 1 20).total = 0 →
       (search_cases [scenarioRecord] "case" none none none none 1 20).total_pages = 0)) :=
  ⟨by decide, search_total_and_pages [scenarioRecord] "case" none none none none 1 20 (by decide)⟩

/-- C8: the export fetch is capped at `min(limit, 10000)` rows — so at
most 10000 rows even for `limit = 50000` — and the returned row count of
both serializers is exactly the number of rows serialized into the
body, not the total matching count. -/
theorem export_row_cap (db : List Case) (q : String) (court : Option String)
    (year : Option Int) (df dt : Option String) (limit : Nat) :
    (export_cases_csv db q court year df dt limit).2 =
      (fetchExportRows db q court year df dt limit).length ∧
    (export_cases_jsonl db q court year df dt limit).2 =
      (fetchExportRows db q court year df dt limit).length ∧
    (fetchExportRows db q court year df dt limit).length ≤
      min limit MAX_EXPORT_ROWS ∧
    (fetchExportRows db q court year df dt limit).length ≤ 10000 ∧
    (export_cases_csv db q court year df dt limit).1 =
      listToStr (csvRowLine csvHeaderFields ++
        ((fetchExportRows db q court year df dt limit).map
          (fun c => csvRowLine (csvCaseFields c))).flatten) ∧
    (export_cases_jsonl db q court year df dt limit).1 =
      listToStr (List.intercalate ['\n']
        ((fetchExportRows db q court year df dt limit).map jsonlLine)) := by
  refine ⟨rfl, rfl, ?_, ?_, rfl, rfl⟩ <;>
  · simp only [fetchExportRows, List.length_take, MAX_EXPORT_ROWS]
    omega

/-- C9: the CSV body opens with exactly the header line
`id,title,citation,court,date,year,judges,headnote`; the headnote cell
of every CSV data row is the source headnote truncated to at most 500
characters; and the JSONL object carries the headnote verbatim, with no
truncation. -/
theorem export_formats_headnote (db : List Case) (q : String)
    (court : Option String) (year : Option Int) (df dt : Option String)
    (limit : Nat) (c : Case) :
    (export_cases_csv db q court year df dt limit).1 =
      listToStr ("id,title,citation,court,date,year,judges,headnote".toList ++
        '\r' :: '\n' ::
        ((fetchExportRows db q court year df dt limit).map
          (fun r => csvRowLine (csvCaseFields r))).flatten) ∧
    (csvCaseFields c)[7]? = some (strTake (c.headnote.getD "") 500) ∧
    (strTake (c.headnote.getD "") 500).length ≤ 500 ∧
    (jsonlPairs c).lookup "headnote" = some (jvalOfOptStr c.headnote) := by
  refine ⟨?_, rfl, ?_, rfl⟩
  · have hh : csvRowLine csvHeaderFields =
        "id,title,citation,court,date,year,judges,headnote".toList ++ ['\r', '\n'] := by
      decide
    show listToStr (csvRowLine csvHeaderFields ++ _) = _
    rw [hh, List.append_assoc]
    rfl
  · show (String.mk ((c.headnote.getD "").toList.take 500)).length ≤ 500
    show ((c.headnote.getD "").toList.take 500).length ≤ 500
    simp [List.length_take]

/-- C10: whenever some record has a `NULL` court, the court breakdown
contains an ordinary entry named `"Unknown"` counting exactly the
`NULL`-court records, and `"Unknown"` therefore also appears in the
names returned by the courts-list operation. -/
theorem court_stats_unknown (db : List Case) (h : ∃ r ∈ db, r.court = none) :
    (∃ e ∈ get_court_stats db, e.court = "Unknown" ∧
        e.count = (db.filter (fun c => decide (c.court = none))).length) ∧
    "Unknown" ∈ list_courts db := by
  obtain ⟨r, hr, hrc⟩ := h
  have h1 : (none : Option String) ∈ db.map (fun c => c.court) :=
    List.mem_map.mpr ⟨r, hr, hrc⟩
  have h2 : (none : Option String) ∈ (db.map (fun c => c.court)).dedup :=
    List.mem_dedup.mpr h1
  have h3 : ((none : Option String),
      (db.filter (fun c => decide (c.court = none))).length) ∈
      ((db.map (fun c => c.court)).dedup).map
        (fun k => (k, (db.filter (fun c => decide (c.court = k))).length)) :=
    List.mem_map.mpr ⟨none, h2, rfl⟩
  have h4 := (List.perm_insertionSort
      (fun a b : Option String × Nat => b.2 ≤ a.2) _).mem_iff.mpr h3
  have h5 : (⟨"Unknown", (db.filter (fun c => decide (c.court = none))).length⟩ :
      CourtStat) ∈ get_court_stats db := by
    show _ ∈ (List.insertionSort _ _).map _
    exact List.mem_map.mpr ⟨_, h4, rfl⟩
  exact ⟨⟨_, h5, rfl, rfl⟩, List.mem_map.mpr ⟨_, h5, rfl⟩⟩

/-- Witness for C10 on a one-record store with a `NULL` court. -/
theorem court_stats_unknown_witness :
    (∃ r ∈ unknownCourtDb, r.court = none) ∧
    ((∃ e ∈ get_court_stats unknownCourtDb, e.court = "Unknown" ∧
        e.count = (unknownCourtDb.filter (fun c => decide (c.court = none))).length) ∧
      "Unknown" ∈ list_courts unknownCourtDb) :=
  ⟨by decide, court_stats_unknown unknownCourtDb (by decide)⟩

end LegalAPI
